import Mathlib

/-!
Shallow embedding of the order data layer (`src/data/orders.ts`) of
`learn-sql-fundamentals`: the option-merging and SQL-text construction of
`getAllOrders` / `getCustomerOrders`, the aggregate read `getOrder`, and the
transactional mutations `createOrder` / `updateOrder`, together with a
relational-state model of the SQLite store they run against.

Conventions of the embedding:
* JavaScript values that flow into templates are modelled by `JsVal`
  (string / number / null / undefined) with JS truthiness.
* Money-like columns (`unitprice`, `discount`, `freight`) are rationals,
  mirroring exact SQL arithmetic on the stored numbers.
* The `sql` template tag of `src/sql-string` (not part of the extracted
  sources) is plain template-literal interpolation: per the design notes,
  interpolated expressions such as the sort field and direction "are applied
  directly into the ORDER BY fragment", so the tag concatenates the template
  chunks with the stringified interpolated values.  Each query is therefore
  modelled as the SQL text it builds (a `String`) plus the list of values
  passed separately to the driver as bound parameters.
* The database handle is explicit state (`DB`); `BEGIN` snapshots the state
  and `ROLLBACK` restores the snapshot, which is SQLite's transaction
  semantics on a single connection.  Statements issued concurrently via
  `Promise.all` on one `sqlite` handle are serialized by the driver's
  statement queue, so they are modelled as executing in list order.
-/

/-- A JavaScript value as it reaches the query layer. -/
inductive JsVal where
  | str (s : String)
  | num (q : ℚ)
  | nullV
  | undef
deriving DecidableEq, Repr

namespace JsVal

/-- JS truthiness for the values that can reach `customerId ? … : ''`:
the empty string, `0`, `null` and `undefined` are falsy. -/
def truthy : JsVal → Bool
  | str s => s ≠ ""
  | num q => q ≠ 0
  | nullV => false
  | undef => false

/-- How a value prints inside a JS template literal. -/
def asTemplateString : JsVal → String
  | str s => s
  | num q => toString q
  | nullV => "null"
  | undef => "undefined"

/-- Whether the value, interpolated between the single quotes of an SQL
string literal, escapes that literal: a single-quote character in the
printed value terminates the literal early, so the executed fragment is no
longer the intended equality (an `x' OR '1'='1` shape injects a different
predicate; an unbalanced quote makes the statement fail to parse). -/
def breaksLiteral (v : JsVal) : Bool :=
  v.asTemplateString.data.contains '\''

end JsVal

/-- `OrderCollectionOptions` as supplied by a caller: each field may be absent
(the key is missing from the object). -/
structure OrderCollectionOptions where
  page : Option Int := none
  perPage : Option Int := none
  sort : Option String := none
  order : Option String := none
  customerId : Option JsVal := none
deriving DecidableEq, Repr

/-- Options after merging over the defaults. -/
structure MergedOptions where
  page : Int
  perPage : Int
  sort : String
  order : String
  customerId : JsVal
deriving DecidableEq, Repr

/-- `DEFAULT_ORDER_COLLECTION_OPTIONS`:
`{ order: 'asc', page: 1, perPage: 20, sort: 'id', customerId: undefined }`. -/
def DEFAULT_ORDER_COLLECTION_OPTIONS : MergedOptions :=
  { order := "asc", page := 1, perPage := 20, sort := "id", customerId := .undef }

/-- The spread `{ ...DEFAULT_ORDER_COLLECTION_OPTIONS, ...opts }`: a key
present in `opts` wins, an absent key falls back to the default. -/
def mergeOptions (opts : OrderCollectionOptions) : MergedOptions :=
  { page := opts.page.getD DEFAULT_ORDER_COLLECTION_OPTIONS.page
    perPage := opts.perPage.getD DEFAULT_ORDER_COLLECTION_OPTIONS.perPage
    sort := opts.sort.getD DEFAULT_ORDER_COLLECTION_OPTIONS.sort
    order := opts.order.getD DEFAULT_ORDER_COLLECTION_OPTIONS.order
    customerId := opts.customerId.getD DEFAULT_ORDER_COLLECTION_OPTIONS.customerId }

/-- `ORDER_COLUMNS` from the source. -/
def ORDER_COLUMNS : List String :=
  ["id AS id", "customerid", "employeeid", "shipcity", "shipcountry", "shippeddate"]

/-- `customerId ? sql\`WHERE CustomerOrder.customerid = '${customerId}'\` : ''`:
the raw customer id is placed between single quotes inside the SQL text when
truthy; the fragment is the empty string otherwise. -/
def whereCustomer (customerId : JsVal) : String :=
  if customerId.truthy then
    "WHERE CustomerOrder.customerid = '" ++ customerId.asTemplateString ++ "'"
  else ""

/-- The SQL text built by `getAllOrders` for merged options `m`; the template
interpolates the column list, the WHERE fragment, the sort field and
direction, and the numeric LIMIT/OFFSET directly into the text.  `db.all` is
called with no bound parameters, so the parameter list of this query is `[]`. -/
def getAllOrdersSqlText (m : MergedOptions) : String :=
  "\nSELECT " ++ String.intercalate "," (ORDER_COLUMNS.map (fun col => "CustomerOrder." ++ col)) ++
  ",\n  Customer.companyname AS customername, Employee.lastname AS employeename" ++
  "\nFROM CustomerOrder" ++
  "\nLEFT JOIN Customer ON Customer.id = customerid" ++
  "\nLEFT JOIN Employee ON Employee.id = employeeid" ++
  "\n" ++ whereCustomer m.customerId ++
  "\nORDER BY " ++ m.sort ++ " " ++ m.order ++
  "\nLIMIT " ++ toString m.perPage ++ " OFFSET " ++ toString ((m.page - 1) * m.perPage)

/-- The SQL text of `getOrder`; the only dynamic part is the bound placeholder
`$1`, so the text is one fixed string and the id travels in the parameter
list. -/
def getOrderSqlText : String :=
  "\n        SELECT co.*,\n               c.companyname                                       AS customername," ++
  "\n               e.firstname || ' ' || e.lastname                    AS employeename," ++
  "\n               SUM(od.unitprice * od.quantity * (1 - od.discount)) AS subtotal" ++
  "\n        FROM CustomerOrder AS co" ++
  "\n                 LEFT JOIN Customer AS c ON co.customerid = c.id" ++
  "\n                 LEFT JOIN Employee AS e ON co.employeeid = e.id" ++
  "\n                 LEFT JOIN OrderDetail AS od ON od.orderid = co.id" ++
  "\n        WHERE co.id = $1\n    "

/-- `getOrder`'s statement as (text, bound parameters): `db.get(sql…, id)`. -/
def getOrderQuery (id : JsVal) : String × List JsVal :=
  (getOrderSqlText, [id])

/-- The keys of the `CreateOrder` parent-insert / parent-update payload, in
the declaration order of the `Pick`ed `Order` type (JS object key order). -/
def createOrderKeys : List String :=
  ["employeeid", "customerid", "shipcity", "shipaddress", "shipname", "shipvia",
   "shipregion", "shipcountry", "shippostalcode", "requireddate", "freight"]

/-- The SQL text of `updateOrder`'s parent UPDATE for order id `id`: the SET
list binds every data value positionally (`$1 … $11`), but the id is
interpolated directly into the text (`WHERE id=${id}`). -/
def updateOrderSqlText (id : JsVal) : String :=
  "\n        UPDATE CustomerOrder\n        SET " ++
  String.intercalate ", "
    (createOrderKeys.enum.map (fun p => p.2 ++ " = $" ++ toString (p.1 + 1))) ++
  "\n        WHERE id=" ++ id.asTemplateString

/-- The SQL text of one detail INSERT inside `createOrder`: all columns fixed,
all values bound positionally (`$1` = orderid, `$2` = composite id,
`$3 … $6` = the detail fields). -/
def insertDetailSqlText : String :=
  "\nINSERT INTO OrderDetail(orderid, id, productid, quantity, unitprice, discount)" ++
  "\nVALUES ($1, $2, $3, $4, $5, $6)"

/-- The SQL text of `createOrder`'s parent INSERT: columns are the keys of the
order object, values are all bound positionally (`$1 … $11`). -/
def insertOrderSqlText : String :=
  "\nINSERT INTO CustomerOrder(" ++ String.intercalate ", " createOrderKeys ++ ")" ++
  "\nVALUES (" ++
  String.intercalate ", " (createOrderKeys.enum.map (fun p => "$" ++ toString (p.1 + 1))) ++ ")"

/-! ### Relational state -/

/-- A `CustomerOrder` row (the columns this layer reads or writes). -/
structure OrderRow where
  id : Nat
  employeeid : Option Nat
  customerid : Option String
  shipcity : Option String
  shipaddress : Option String
  shipname : Option String
  shipvia : Option Nat
  shipregion : Option String
  shipcountry : Option String
  shippostalcode : Option String
  requireddate : Option String
  freight : Option ℚ
  shippeddate : Option String
deriving DecidableEq, Repr

/-- An `OrderDetail` row; `id` is the TEXT primary key. -/
structure DetailRow where
  id : String
  orderid : Nat
  productid : Nat
  quantity : Nat
  unitprice : ℚ
  discount : ℚ
deriving DecidableEq, Repr

/-- A `Customer` row (the columns this layer reads). -/
structure CustomerRow where
  id : String
  companyname : String
deriving DecidableEq, Repr

/-- An `Employee` row (the columns this layer reads). -/
structure EmployeeRow where
  id : Nat
  firstname : String
  lastname : String
deriving DecidableEq, Repr

/-- The database state visible to this layer.  `nextOrderId` is the integer
primary key the store will assign to the next inserted `CustomerOrder`;
`products` is the set of existing `Product` ids (the target of the
`OrderDetail.productid` foreign key). -/
structure DB where
  orders : List OrderRow
  details : List DetailRow
  customers : List CustomerRow
  employees : List EmployeeRow
  products : List Nat
  nextOrderId : Nat
deriving DecidableEq, Repr

/-! ### Collection query semantics -/

/-- A row of the `getAllOrders` result: the `ORDER_COLUMNS` of the order plus
the two left-joined display names (NULL when the referenced row is absent). -/
structure JoinedOrderRow where
  id : Nat
  customerid : Option String
  employeeid : Option Nat
  shipcity : Option String
  shipcountry : Option String
  shippeddate : Option String
  customername : Option String
  employeename : Option String
deriving DecidableEq, Repr

/-- Left-join one order row with `Customer` and `Employee` (primary keys are
unique, so the first match is the match). -/
def joinOrderRow (db : DB) (r : OrderRow) : JoinedOrderRow :=
  { id := r.id
    customerid := r.customerid
    employeeid := r.employeeid
    shipcity := r.shipcity
    shipcountry := r.shipcountry
    shippeddate := r.shippeddate
    customername :=
      r.customerid.bind (fun cid => (db.customers.find? (fun c => c.id = cid)).map (·.companyname))
    employeename :=
      r.employeeid.bind (fun eid => (db.employees.find? (fun e => e.id = eid)).map (·.lastname)) }

/-- An SQL storage value, for ORDER BY comparison.  SQLite compares across
storage classes in the fixed order NULL < numeric < text. -/
inductive SqlVal where
  | nullv
  | n (x : ℚ)
  | s (v : String)
deriving DecidableEq, Repr

/-- SQLite's `≤` across storage classes. -/
def SqlVal.le : SqlVal → SqlVal → Bool
  | .nullv, _ => true
  | .n _, .nullv => false
  | .n x, .n y => x ≤ y
  | .n _, .s _ => true
  | .s _, .nullv => false
  | .s _, .n _ => false
  | .s a, .s b => a ≤ b

/-- The ORDER BY key of a result row for a given sort column name (the six
selected columns; the claims exercise `id` and `shippeddate`). -/
def sortKey (sort : String) (r : JoinedOrderRow) : SqlVal :=
  if sort = "id" then .n r.id
  else if sort = "customerid" then (match r.customerid with | some v => .s v | none => .nullv)
  else if sort = "employeeid" then (match r.employeeid with | some v => .n v | none => .nullv)
  else if sort = "shipcity" then (match r.shipcity with | some v => .s v | none => .nullv)
  else if sort = "shipcountry" then (match r.shipcountry with | some v => .s v | none => .nullv)
  else if sort = "shippeddate" then (match r.shippeddate with | some v => .s v | none => .nullv)
  else .nullv

/-- The row ordering induced by `ORDER BY <sort> <order>`. -/
def rowRel (sort ord : String) (a b : JoinedOrderRow) : Prop :=
  (if ord = "desc" then SqlVal.le (sortKey sort b) (sortKey sort a)
   else SqlVal.le (sortKey sort a) (sortKey sort b)) = true

instance (sort ord : String) : DecidableRel (rowRel sort ord) := by
  intro a b; unfold rowRel; infer_instance

/-- The row multiset produced by `getAllOrders`' query for merged options `m`:
filter by the WHERE fragment, left-join the names, sort by the ORDER BY key,
then apply `LIMIT perPage OFFSET (page-1)*perPage`.  The WHERE fragment
interpolates the raw customer id between single quotes, so it means the
intended `customerid` equality only while the printed id contains no single
quote; a quote-bearing id escapes the literal and the executed predicate is
no longer a customerid filter at all (the `x' OR '1'='1` shape selects
unrelated rows) — modelled as an unconstrained selection.  An unbalanced
quote instead makes the whole statement fail to parse and `db.all` reject;
that error path has no result rows and is outside this row-level model. -/
def runCollectionQuery (db : DB) (m : MergedOptions) : List JoinedOrderRow :=
  let filtered :=
    if m.customerId.truthy then
      if m.customerId.breaksLiteral then
        db.orders
      else
        db.orders.filter (fun r => r.customerid = some m.customerId.asTemplateString)
    else db.orders
  let sorted := List.insertionSort (rowRel m.sort m.order) (filtered.map (joinOrderRow db))
  (sorted.drop ((m.page - 1) * m.perPage).toNat).take m.perPage.toNat

/-- `getAllOrders(opts)`: merge the options over the defaults, build the SQL
text, and run the query.  Modelled as the pair (SQL text, result rows). -/
def getAllOrders (db : DB) (opts : OrderCollectionOptions) : String × List JoinedOrderRow :=
  let m := mergeOptions opts
  (getAllOrdersSqlText m, runCollectionQuery db m)

/-- `getCustomerOrders(customerId, opts)` =
`getAllOrders({ sort: 'shippeddate', order: 'asc', customerId, ...opts })`:
the spread comes last, so any key present in `opts` (including `customerId`)
overrides the three fixed entries. -/
def getCustomerOrders (db : DB) (customerId : JsVal) (opts : OrderCollectionOptions) :
    String × List JoinedOrderRow :=
  getAllOrders db
    { page := opts.page
      perPage := opts.perPage
      sort := some (opts.sort.getD "shippeddate")
      order := some (opts.order.getD "asc")
      customerId := some (opts.customerId.getD customerId) }

/-! ### `getOrder`: the single-row aggregate read -/

/-- The one row returned by `getOrder`'s query.  The query contains the bare
aggregate `SUM(…)` with no GROUP BY, so SQLite treats the whole (filtered)
join as a single group and returns exactly one row even when the WHERE clause
matches nothing; in that case every `co.*` column and the SUM are NULL. -/
structure OrderAggRow where
  id : Option Nat
  customerid : Option String
  employeeid : Option Nat
  shippeddate : Option String
  customername : Option String
  employeename : Option String
  subtotal : Option ℚ
deriving DecidableEq, Repr

/-- The rows produced by `getOrder`'s SQL for a given id: always exactly one
aggregate row.  `subtotal` is `SUM(od.unitprice * od.quantity *
(1 - od.discount))` over the order's detail rows; with the LEFT JOIN an order
without details contributes one all-NULL `od` row, and `SUM` over only NULLs
is NULL, as is `SUM` over the empty group when the order itself is absent. -/
def getOrderRows (db : DB) (id : Nat) : List OrderAggRow :=
  match db.orders.find? (fun r => r.id = id) with
  | none =>
      [{ id := none, customerid := none, employeeid := none, shippeddate := none,
         customername := none, employeename := none, subtotal := none }]
  | some r =>
      let dets := db.details.filter (fun d => d.orderid = id)
      [{ id := some r.id
         customerid := r.customerid
         employeeid := r.employeeid
         shippeddate := r.shippeddate
         customername :=
           r.customerid.bind
             (fun cid => (db.customers.find? (fun c => c.id = cid)).map (·.companyname))
         employeename :=
           r.employeeid.bind
             (fun eid => (db.employees.find? (fun e => e.id = eid)).map
               (fun e => e.firstname ++ " " ++ e.lastname))
         subtotal :=
           match dets with
           | [] => none
           | _ => some ((dets.map
               (fun d => d.unitprice * (d.quantity : ℚ) * (1 - d.discount))).sum) }]

/-- `getOrder(id)`: `db.get` resolves with the first result row, or with
`undefined` (here `none`) when the result set is empty; it never throws for
an empty result. -/
def getOrder (db : DB) (id : Nat) : Option OrderAggRow :=
  (getOrderRows db id).head?

/-! ### Transactional mutations -/

/-- The `CreateOrder` payload (`Pick<Order, …>`): the eleven mutable fields. -/
structure CreateOrderInput where
  employeeid : Option Nat
  customerid : Option String
  shipcity : Option String
  shipaddress : Option String
  shipname : Option String
  shipvia : Option Nat
  shipregion : Option String
  shipcountry : Option String
  shippostalcode : Option String
  requireddate : Option String
  freight : Option ℚ
deriving DecidableEq, Repr

/-- One element of `createOrder`'s `details` argument
(`Pick<OrderDetail, 'productid' | 'quantity' | 'unitprice' | 'discount'>`). -/
structure CreateDetailInput where
  productid : Nat
  quantity : Nat
  unitprice : ℚ
  discount : ℚ
deriving DecidableEq, Repr

/-- One element of `updateOrder`'s `details` argument (the create fields plus
the composite `id` the row is addressed by). -/
structure UpdateDetailInput where
  id : String
  productid : Nat
  quantity : Nat
  unitprice : ℚ
  discount : ℚ
deriving DecidableEq, Repr

/-- What `db.run` resolves with: the driver's statement object always carries
a `lastID` property (the rowid of the last successful INSERT on the
connection, `0` before any), so `lastID` is `none` only for a hypothetical
driver result without the property — the `typeof result.lastID ===
'undefined'` guard in the source tests exactly this. -/
structure RunResult where
  lastID : Option Nat
deriving DecidableEq, Repr

/-- The outcome of one repository call: the value or error signalled to the
caller, the database state after the call, and the statements issued. -/
structure TxResult (α : Type) where
  res : Except String α
  db : DB
  log : List String
deriving Repr

/-- Execute the parent INSERT of `createOrder`.  The store assigns
`db.nextOrderId` as the new integer primary key; the statement fails when a
supplied foreign reference does not exist (the store's FK constraints —
the only constraints a well-typed parent insert can violate here). -/
def insertCustomerOrder (db : DB) (order : CreateOrderInput) :
    Except String (RunResult × DB) :=
  if (match order.customerid with
      | some c => !(db.customers.any (fun x => x.id = c))
      | none => false) then
    .error "FOREIGN KEY constraint failed"
  else if (match order.employeeid with
      | some e => !(db.employees.any (fun x => x.id = e))
      | none => false) then
    .error "FOREIGN KEY constraint failed"
  else
    let row : OrderRow :=
      { id := db.nextOrderId
        employeeid := order.employeeid
        customerid := order.customerid
        shipcity := order.shipcity
        shipaddress := order.shipaddress
        shipname := order.shipname
        shipvia := order.shipvia
        shipregion := order.shipregion
        shipcountry := order.shipcountry
        shippostalcode := order.shippostalcode
        requireddate := order.requireddate
        freight := order.freight
        shippeddate := none }
    .ok ({ lastID := some db.nextOrderId },
         { db with orders := db.orders ++ [row], nextOrderId := db.nextOrderId + 1 })

/-- Execute one detail INSERT: binds `$1 = result.lastID`,
`$2 = \`${result.lastID}/${detail.productid}\`` and the detail fields.  It
fails on a duplicate composite primary key or a dangling product reference. -/
def insertOrderDetail (db : DB) (orderid : Nat) (d : CreateDetailInput) :
    Except String DB :=
  let compositeId := toString orderid ++ "/" ++ toString d.productid
  if db.details.any (fun row => row.id = compositeId) then
    .error "UNIQUE constraint failed: OrderDetail.id"
  else if !(db.products.any (fun p => p = d.productid)) then
    .error "FOREIGN KEY constraint failed"
  else
    .ok { db with
          details := db.details ++
            [{ id := compositeId, orderid := orderid, productid := d.productid,
               quantity := d.quantity, unitprice := d.unitprice, discount := d.discount }] }

/-- The `for (const detail of details)` loop: issue the detail INSERTs in
order, stopping at the first failure. -/
def insertDetails (db : DB) (orderid : Nat) :
    List CreateDetailInput → Except String DB × List String
  | [] => (.ok db, [])
  | d :: rest =>
    match insertOrderDetail db orderid d with
    | .error e => (.error e, [insertDetailSqlText])
    | .ok db1 =>
      let next := insertDetails db1 orderid rest
      (next.1, insertDetailSqlText :: next.2)

/-- `createOrder(order, details = [])`: BEGIN, parent INSERT, the
`lastID` guard (`throw new Error('Error occurred')` when absent), the detail
INSERT loop, COMMIT — and on any thrown error, ROLLBACK (restoring the
pre-BEGIN state) before re-throwing.  Resolves with the new order's id. -/
def createOrder (db : DB) (order : CreateOrderInput)
    (details : List CreateDetailInput) : TxResult Nat :=
  match insertCustomerOrder db order with
  | .error e =>
      { res := .error e, db := db, log := ["BEGIN", insertOrderSqlText, "ROLLBACK"] }
  | .ok (result, db1) =>
    match result.lastID with
    | none =>
        { res := .error "Error occurred", db := db,
          log := ["BEGIN", insertOrderSqlText, "ROLLBACK"] }
    | some newId =>
      match insertDetails db1 newId details with
      | (.error e, dlog) =>
          { res := .error e, db := db,
            log := "BEGIN" :: insertOrderSqlText :: (dlog ++ ["ROLLBACK"]) }
      | (.ok db2, dlog) =>
          { res := .ok newId, db := db2,
            log := "BEGIN" :: insertOrderSqlText :: (dlog ++ ["COMMIT"]) }

/-- The bound parameters of one detail INSERT inside `createOrder`:
`[result.lastID, \`${result.lastID}/${detail.productid}\`, ...Object.values(detail)]`. -/
def insertDetailParams (orderid : Nat) (d : CreateDetailInput) : List JsVal :=
  [.num (orderid : ℚ), .str (toString orderid ++ "/" ++ toString d.productid),
   .num (d.productid : ℚ), .num (d.quantity : ℚ), .num d.unitprice, .num d.discount]

/-- The SQL text of one detail UPDATE inside `updateOrder`: every value is a
bound placeholder, including the addressing composite id (`$5`). -/
def updateDetailSqlText : String :=
  "\n                UPDATE OrderDetail\n                SET 'productid' = $1," ++
  "\n                    'quantity'= $2,\n                    'unitprice' = $3," ++
  "\n                    'discount'  = $4\n                WHERE id = $5\n      "

/-- Execute the parent UPDATE of `updateOrder`: set the eleven payload fields
on every `CustomerOrder` row whose id matches (fails on a dangling foreign
reference).  The driver's result always carries a `lastID` (0 before any
INSERT on the connection), so the guard in the source never fires. -/
def updateCustomerOrder (db : DB) (id : Nat) (data : CreateOrderInput) :
    Except String (RunResult × DB) :=
  if (match data.customerid with
      | some c => !(db.customers.any (fun x => x.id = c))
      | none => false) then
    .error "FOREIGN KEY constraint failed"
  else if (match data.employeeid with
      | some e => !(db.employees.any (fun x => x.id = e))
      | none => false) then
    .error "FOREIGN KEY constraint failed"
  else
    .ok ({ lastID := some 0 },
         { db with orders := db.orders.map (fun r =>
             if r.id = id then
               { r with
                 employeeid := data.employeeid
                 customerid := data.customerid
                 shipcity := data.shipcity
                 shipaddress := data.shipaddress
                 shipname := data.shipname
                 shipvia := data.shipvia
                 shipregion := data.shipregion
                 shipcountry := data.shipcountry
                 shippostalcode := data.shippostalcode
                 requireddate := data.requireddate
                 freight := data.freight }
             else r) })

/-- Execute one detail UPDATE: set the four fields on the detail row whose
composite id matches (zero matching rows is not an error); fails on a
dangling product reference. -/
def updateOrderDetail (db : DB) (d : UpdateDetailInput) : Except String DB :=
  if !(db.products.any (fun p => p = d.productid)) then
    .error "FOREIGN KEY constraint failed"
  else
    .ok { db with details := db.details.map (fun row =>
            if row.id = d.id then
              { row with productid := d.productid, quantity := d.quantity,
                         unitprice := d.unitprice, discount := d.discount }
            else row) }

/-- The `Promise.all(details.map(…))` block: every detail UPDATE is its own
statement on the one connection (the driver serializes them in order); the
block as a whole fails iff some statement fails. -/
def updateDetails (db : DB) :
    List UpdateDetailInput → Except String DB × List String
  | [] => (.ok db, [])
  | d :: rest =>
    match updateOrderDetail db d with
    | .error e => (.error e, [updateDetailSqlText])
    | .ok db1 =>
      let next := updateDetails db1 rest
      (next.1, updateDetailSqlText :: next.2)

/-- `updateOrder(id, data, details = [])`: BEGIN, parent UPDATE, the `lastID`
guard, the detail UPDATE statements, COMMIT; on any thrown error, ROLLBACK
(restoring the pre-BEGIN state) and throw the generic
`new Error('Error occurred')`.  Resolves with no value. -/
def updateOrder (db : DB) (id : Nat) (data : CreateOrderInput)
    (details : List UpdateDetailInput) : TxResult Unit :=
  match updateCustomerOrder db id data with
  | .error _ =>
      { res := .error "Error occurred", db := db,
        log := ["BEGIN", updateOrderSqlText (.num (id : ℚ)), "ROLLBACK"] }
  | .ok (result, db1) =>
    match result.lastID with
    | none =>
        { res := .error "Error occurred", db := db,
          log := ["BEGIN", updateOrderSqlText (.num (id : ℚ)), "ROLLBACK"] }
    | some _ =>
      match updateDetails db1 details with
      | (.error _, dlog) =>
          { res := .error "Error occurred", db := db,
            log := "BEGIN" :: updateOrderSqlText (.num (id : ℚ)) :: (dlog ++ ["ROLLBACK"]) }
      | (.ok db2, dlog) =>
          { res := .ok (), db := db2,
            log := "BEGIN" :: updateOrderSqlText (.num (id : ℚ)) :: (dlog ++ ["COMMIT"]) }

/-! ### Concrete example data for witnesses and counterexamples -/

/-- Example order row 1: customer ALFKI, employee 1, shipped 2024-01-05. -/
def dbExOrder1 : OrderRow :=
  { id := 1, employeeid := some 1, customerid := some "ALFKI",
    shipcity := some "Berlin", shipaddress := none, shipname := none,
    shipvia := none, shipregion := none, shipcountry := some "Germany",
    shippostalcode := none, requireddate := none, freight := none,
    shippeddate := some "2024-01-05" }

/-- Example order row 2: customer ALFKI, shipped 2024-01-02 (earlier). -/
def dbExOrder2 : OrderRow :=
  { dbExOrder1 with id := 2, shippeddate := some "2024-01-02" }

/-- Example order row 3: customer BERGS, not yet shipped. -/
def dbExOrder3 : OrderRow :=
  { dbExOrder1 with id := 3, customerid := some "BERGS", shippeddate := none }

/-- Example detail of order 1: the first line of the spec's subtotal example. -/
def dbExDetail1 : DetailRow :=
  { id := "1/1", orderid := 1, productid := 1, quantity := 2, unitprice := 10,
    discount := 1/10 }

/-- Example detail of order 1: the second line of the spec's subtotal example. -/
def dbExDetail2 : DetailRow :=
  { id := "1/2", orderid := 1, productid := 2, quantity := 1, unitprice := 5,
    discount := 0 }

/-- Example database: three orders of two customers, two details on order 1,
products 1–3; the store will assign id 4 to the next created order. -/
def dbEx : DB :=
  { orders := [dbExOrder1, dbExOrder2, dbExOrder3]
    details := [dbExDetail1, dbExDetail2]
    customers := [{ id := "ALFKI", companyname := "Alfreds Futterkiste" },
                  { id := "BERGS", companyname := "Berglunds snabbkop" }]
    employees := [{ id := 1, firstname := "Nancy", lastname := "Davolio" }]
    products := [1, 2, 3]
    nextOrderId := 4 }

/-- Example create/update payload with valid foreign references. -/
def orderInputEx : CreateOrderInput :=
  { employeeid := some 1, customerid := some "ALFKI", shipcity := some "Oslo",
    shipaddress := none, shipname := none, shipvia := none, shipregion := none,
    shipcountry := some "Norway", shippostalcode := none, requireddate := none,
    freight := none }

/-- Example detail input referencing the existing product 1. -/
def detailEx : CreateDetailInput :=
  { productid := 1, quantity := 2, unitprice := 10, discount := 1/10 }

/-- Example detail input whose product reference 99 does not exist. -/
def badDetailEx : CreateDetailInput :=
  { productid := 99, quantity := 1, unitprice := 1, discount := 0 }

/-- Example detail update addressing row 1/1, referencing existing product 2. -/
def updDetailEx : UpdateDetailInput :=
  { id := "1/1", productid := 2, quantity := 3, unitprice := 4, discount := 0 }

/-- Example detail update whose product reference 99 does not exist. -/
def badUpdDetailEx : UpdateDetailInput :=
  { id := "1/1", productid := 99, quantity := 1, unitprice := 1, discount := 0 }

/-- Decidable equality for driver results (`Except`), for concrete
evaluations. -/
instance : DecidableEq (Except String Nat) := fun a b =>
  match a, b with
  | .error x, .error y =>
      if h : x = y then .isTrue (h ▸ rfl) else .isFalse (fun hh => h (Except.error.inj hh))
  | .ok x, .ok y =>
      if h : x = y then .isTrue (h ▸ rfl) else .isFalse (fun hh => h (Except.ok.inj hh))
  | .error _, .ok _ => .isFalse (fun hh => Except.noConfusion hh)
  | .ok _, .error _ => .isFalse (fun hh => Except.noConfusion hh)

/-- Helper: SQLite's cross-class value ordering is total. -/
theorem SqlVal_le_total (a b : SqlVal) : SqlVal.le a b = true ∨ SqlVal.le b a = true := by
  cases a <;> cases b <;>
    first
      | exact Or.inl rfl
      | exact Or.inr rfl
      | (rename_i x y
         rcases le_total x y with h | h
         · exact Or.inl (decide_eq_true h)
         · exact Or.inr (decide_eq_true h))

/-- Helper: SQLite's cross-class value ordering is transitive. -/
theorem SqlVal_le_trans : ∀ {a b c : SqlVal}, SqlVal.le a b = true →
    SqlVal.le b c = true → SqlVal.le a c = true
  | .nullv, _, _, _, _ => rfl
  | .n _, .nullv, _, h1, _ => Bool.noConfusion h1
  | .s _, .nullv, _, h1, _ => Bool.noConfusion h1
  | .s _, .n _, _, h1, _ => Bool.noConfusion h1
  | .n _, .n _, .nullv, _, h2 => Bool.noConfusion h2
  | .n _, .s _, .nullv, _, h2 => Bool.noConfusion h2
  | .n _, .s _, .n _, _, h2 => Bool.noConfusion h2
  | .n _, .s _, .s _, _, _ => rfl
  | .s _, .s _, .nullv, _, h2 => Bool.noConfusion h2
  | .s _, .s _, .n _, _, h2 => Bool.noConfusion h2
  | .n _, .n _, .s _, _, _ => rfl
  | .n _, .n _, .n _, h1, h2 =>
      decide_eq_true (le_trans (of_decide_eq_true h1) (of_decide_eq_true h2))
  | .s _, .s _, .s _, h1, h2 =>
      decide_eq_true (le_trans (of_decide_eq_true h1) (of_decide_eq_true h2))

instance (srt ord : String) : IsTotal JoinedOrderRow (rowRel srt ord) where
  total a b := by
    unfold rowRel
    by_cases h : ord = "desc"
    · simp only [if_pos h]
      exact SqlVal_le_total _ _
    · simp only [if_neg h]
      exact SqlVal_le_total _ _

instance (srt ord : String) : IsTrans JoinedOrderRow (rowRel srt ord) where
  trans a b c h1 h2 := by
    unfold rowRel at h1 h2 ⊢
    by_cases h : ord = "desc"
    · simp only [if_pos h] at h1 h2 ⊢
      exact SqlVal_le_trans h2 h1
    · simp only [if_neg h] at h1 h2 ⊢
      exact SqlVal_le_trans h1 h2

/-! ### Claims -/

/-- Claim C7: calling the collection listing with an empty options object
behaves identically to calling it with the explicit defaults
page 1, perPage 20, sort "id", order "asc" and no customer filter: the merge
of caller options over the defaults is an identity when no options are
supplied, so both the SQL text and the result rows coincide. -/
theorem getAllOrders_default_merge (db : DB) :
    getAllOrders db {} =
      getAllOrders db { page := some 1, perPage := some 20, sort := some "id",
                        order := some "asc", customerId := none } := rfl

/-- Claim C10: a falsy `customerId` option (empty string, 0, null — not only
undefined) is treated exactly as if no customer filter were supplied: the
WHERE fragment is the empty string and the query (text and rows) is the
unfiltered one. -/
theorem getAllOrders_falsy_filter (db : DB) (opts : OrderCollectionOptions) (v : JsVal)
    (hv : opts.customerId = some v) (hf : v.truthy = false) :
    whereCustomer (mergeOptions opts).customerId = "" ∧
    getAllOrders db opts = getAllOrders db { opts with customerId := none } := by
  simp [getAllOrders, getAllOrdersSqlText, runCollectionQuery, whereCustomer,
    mergeOptions, DEFAULT_ORDER_COLLECTION_OPTIONS, hv, hf]
  simp [JsVal.truthy]

/-- Claim C10 witness: the empty string is falsy, and filtering `dbEx` by the
empty-string customer id returns the unfiltered collection. -/
theorem getAllOrders_falsy_filter_witness :
    whereCustomer (mergeOptions { customerId := some (.str "") }).customerId = "" ∧
    getAllOrders dbEx { customerId := some (.str "") } =
      getAllOrders dbEx { customerId := none } :=
  getAllOrders_falsy_filter dbEx { customerId := some (.str "") } (.str "") rfl (by decide)

set_option maxRecDepth 40000 in
/-- Claim C2 counterexample: caller-supplied data values are NOT passed only
as bound placeholders.  The customer id reaches the `getAllOrders` SQL text
verbatim between single quotes (so the text differs for different filter
values, and the `db.all` call binds no parameters at all), and `updateOrder`
interpolates the order id into its UPDATE text (`WHERE id=${id}`). -/
theorem queryValues_interpolated_counterexample :
    whereCustomer (.str "ALFKI") = "WHERE CustomerOrder.customerid = 'ALFKI'" ∧
    (getAllOrders dbEx { customerId := some (.str "ALFKI") }).1 ≠
      (getAllOrders dbEx { customerId := some (.str "BERGS") }).1 ∧
    updateOrderSqlText (.num 1) ≠ updateOrderSqlText (.num 2) := by
  refine ⟨rfl, ?_, ?_⟩ <;> decide

set_option maxRecDepth 40000 in
/-- Claim C2 amended: `getOrder` passes the order id only as a bound
positional placeholder (its SQL text is one fixed string, independent of the
id, and the id travels in the parameter list), the detail INSERTs of
`createOrder` bind every data value positionally, and when no filter is
requested the WHERE fragment is the empty string; but `getAllOrders`
interpolates a truthy customer id (single-quoted) into the SQL text and
`updateOrder` interpolates the order id into its text. -/
theorem queryValues_binding (id v w : JsVal) (oid : Nat) (d : CreateDetailInput) :
    (getOrderQuery v).1 = (getOrderQuery w).1 ∧
    (getOrderQuery id).2 = [id] ∧
    insertDetailParams oid d =
      [.num (oid : ℚ), .str (toString oid ++ "/" ++ toString d.productid),
       .num (d.productid : ℚ), .num (d.quantity : ℚ), .num d.unitprice, .num d.discount] ∧
    whereCustomer .undef = "" ∧
    whereCustomer (.str "X") = "WHERE CustomerOrder.customerid = 'X'" ∧
    updateOrderSqlText (.num 1) ≠ updateOrderSqlText (.num 2) := by
  refine ⟨rfl, rfl, rfl, rfl, rfl, ?_⟩
  decide

/-- Claim C9 counterexample: for an id with no matching `CustomerOrder` row,
`getOrder` does not report an absent result.  Because the query computes the
bare aggregate `SUM(…)` with no GROUP BY, SQLite returns exactly one row for
the empty group — all order columns and the sum are NULL — and `db.get`
resolves with that row, not with `undefined`. -/
theorem getOrder_missing_counterexample :
    (dbEx.orders.find? (fun o => o.id = 999) = none) ∧ getOrder dbEx 999 ≠ none := by
  refine ⟨rfl, ?_⟩
  decide

/-- Claim C9 amended: for an id with no matching `CustomerOrder` row,
`getOrder` does not throw; it resolves with a single present row whose order
columns and subtotal are all NULL (the empty-group aggregate row), rather
than with an absent/empty result. -/
theorem getOrder_missing_id (db : DB) (id : Nat)
    (h : db.orders.find? (fun o => o.id = id) = none) :
    getOrder db id =
      some { id := none, customerid := none, employeeid := none, shippeddate := none,
             customername := none, employeename := none, subtotal := none } := by
  unfold getOrder getOrderRows
  rw [h]
  rfl

/-- Claim C9 witness: order id 999 does not exist in `dbEx`, and `getOrder`
returns the all-NULL aggregate row for it. -/
theorem getOrder_missing_id_witness :
    getOrder dbEx 999 =
      some { id := none, customerid := none, employeeid := none, shippeddate := none,
             customername := none, employeename := none, subtotal := none } :=
  getOrder_missing_id dbEx 999 rfl

/-- Claim C5: `getOrder(id)` returns the order enriched with a subtotal equal
to the sum over its `OrderDetail` rows of `unitprice * quantity *
(1 - discount)` (the order exists and has at least one detail row, so the
aggregate is non-NULL). -/
theorem getOrder_subtotal (db : DB) (id : Nat) (r : OrderRow) (ds : List DetailRow)
    (hfind : db.orders.find? (fun o => o.id = id) = some r)
    (hds : db.details.filter (fun d => d.orderid = id) = ds)
    (hne : ds ≠ []) :
    ∃ row, getOrder db id = some row ∧
      row.subtotal =
        some ((ds.map (fun d => d.unitprice * (d.quantity : ℚ) * (1 - d.discount))).sum) := by
  subst hds
  unfold getOrder getOrderRows
  rw [hfind]
  refine ⟨_, rfl, ?_⟩
  cases h : db.details.filter (fun d => d.orderid = id) with
  | nil => exact absurd h hne
  | cons d rest => rfl

/-- Claim C5 witness: for order 1 of the example database, whose details are
`unitprice 10, quantity 2, discount 0.1` and `unitprice 5, quantity 1,
discount 0`, the subtotal is `10*2*0.9 + 5*1*1 = 23`. -/
theorem getOrder_subtotal_witness :
    ∃ row, getOrder dbEx 1 = some row ∧ row.subtotal = some 23 := by
  obtain ⟨row, h1, h2⟩ :=
    getOrder_subtotal dbEx 1 dbExOrder1 [dbExDetail1, dbExDetail2] rfl rfl (by decide)
  refine ⟨row, h1, h2.trans ?_⟩
  norm_num [dbExDetail1, dbExDetail2]

/-- Claim C6: the collection query paginates with `LIMIT perPage` and
`OFFSET (page-1)*perPage`, so page 1 yields offset 0, and for a fixed
dataset and fixed sort/order the pages tile one deterministic ordering:
page 2 with 10 per page returns exactly rows 11–20 of the ordering returned
by page 1 with 20 per page. -/
theorem getAllOrders_pagination (db : DB) (srt ord : String) (cid : Option JsVal)
    (opts : OrderCollectionOptions) (h1 : opts.page = some 1) :
    ((mergeOptions opts).page - 1) * (mergeOptions opts).perPage = 0 ∧
    (getAllOrders db { page := some 2, perPage := some 10, sort := some srt,
                       order := some ord, customerId := cid }).2 =
      ((getAllOrders db { page := some 1, perPage := some 20, sort := some srt,
                          order := some ord, customerId := cid }).2).drop 10 := by
  constructor
  · simp [mergeOptions, h1]
  · simp only [getAllOrders, runCollectionQuery, mergeOptions,
      DEFAULT_ORDER_COLLECTION_OPTIONS, Option.getD_some, Option.getD_none]
    norm_num [Int.toNat_ofNat]
    rw [List.drop_take]
    rfl

/-- Claim C6 witness: the pagination facts applied to the example database
with the default sort column and direction and no filter. -/
theorem getAllOrders_pagination_witness :
    ((mergeOptions { page := some 1 }).page - 1) * (mergeOptions { page := some 1 }).perPage = 0 ∧
    (getAllOrders dbEx { page := some 2, perPage := some 10, sort := some "id",
                         order := some "asc", customerId := none }).2 =
      ((getAllOrders dbEx { page := some 1, perPage := some 20, sort := some "id",
                            order := some "asc", customerId := none }).2).drop 10 :=
  getAllOrders_pagination dbEx "id" "asc" none { page := some 1 } rfl

/-- Helper: a successful parent INSERT reports the assigned primary key
(`db.nextOrderId`) as `lastID`. -/
theorem insertCustomerOrder_ok (db db1 : DB) (o : CreateOrderInput) (r : RunResult)
    (h : insertCustomerOrder db o = .ok (r, db1)) :
    r.lastID = some db.nextOrderId := by
  unfold insertCustomerOrder at h
  split at h
  · simp at h
  · split at h
    · simp at h
    · simp only [Except.ok.injEq, Prod.mk.injEq] at h
      rw [← h.1]

/-- Helper: a successful detail INSERT appends exactly the composite-id row. -/
theorem insertOrderDetail_ok (db db1 : DB) (oid : Nat) (d : CreateDetailInput)
    (h : insertOrderDetail db oid d = .ok db1) :
    db1.details = db.details ++
      [{ id := toString oid ++ "/" ++ toString d.productid, orderid := oid,
         productid := d.productid, quantity := d.quantity,
         unitprice := d.unitprice, discount := d.discount }] := by
  simp only [insertOrderDetail] at h
  split at h
  · simp at h
  · split at h
    · simp at h
    · injection h with h
      rw [← h]

/-- Helper: a successful detail INSERT loop logs one statement per detail,
keeps every pre-existing detail row, and leaves a composite-id row for every
input detail in the final state. -/
theorem insertDetails_ok (oid : Nat) :
    ∀ (ds : List CreateDetailInput) (db db2 : DB),
      (insertDetails db oid ds).1 = .ok db2 →
      (insertDetails db oid ds).2 = List.replicate ds.length insertDetailSqlText ∧
      (∀ r ∈ db.details, r ∈ db2.details) ∧
      ∀ d ∈ ds, ∃ row ∈ db2.details,
        row.id = toString oid ++ "/" ++ toString d.productid ∧ row.orderid = oid := by
  intro ds
  induction ds with
  | nil =>
    intro db db2 h
    simp only [insertDetails] at h
    injection h with h
    subst h
    exact ⟨rfl, fun r hr => hr, by simp⟩
  | cons d rest ih =>
    intro db db2 h
    simp only [insertDetails] at h ⊢
    cases hd : insertOrderDetail db oid d with
    | error e =>
      rw [hd] at h
      exact Except.noConfusion h
    | ok db1 =>
      rw [hd] at h
      dsimp only at h ⊢
      obtain ⟨hlog, hmono, hmem⟩ := ih db1 db2 h
      have hnew := insertOrderDetail_ok db db1 oid d hd
      refine ⟨by rw [hlog]; rfl, ?_, ?_⟩
      · intro r hr
        exact hmono r (by rw [hnew]; exact List.mem_append_left _ hr)
      · intro x hx
        rcases List.mem_cons.mp hx with hx1 | hx2
        · subst hx1
          refine ⟨{ id := toString oid ++ "/" ++ toString x.productid, orderid := oid,
                    productid := x.productid, quantity := x.quantity,
                    unitprice := x.unitprice, discount := x.discount },
                  hmono _ (by rw [hnew]; exact List.mem_append_right _ (by simp)), rfl, rfl⟩
        · exact hmem x hx2

/-- Claim C1: `createOrder(order, details)` is atomic.  It executes
BEGIN, the parent INSERT, one INSERT per detail, COMMIT, and resolves with
the store-assigned id; if any statement fails (or the parent insert yields no
id) the ROLLBACK is issued before the error is signalled and the database
state is exactly the pre-call state — no Order row and no OrderDetail row
from the call persists. -/
theorem createOrder_atomic (db : DB) (order : CreateOrderInput)
    (details : List CreateDetailInput) :
    (∀ e, (createOrder db order details).res = .error e →
        (createOrder db order details).db = db ∧
        ∃ pre, (createOrder db order details).log = pre ++ ["ROLLBACK"]) ∧
    ∀ n, (createOrder db order details).res = .ok n →
        n = db.nextOrderId ∧
        (createOrder db order details).log =
          "BEGIN" :: insertOrderSqlText ::
            (List.replicate details.length insertDetailSqlText ++ ["COMMIT"]) := by
  unfold createOrder
  cases hp : insertCustomerOrder db order with
  | error e =>
    exact ⟨fun e' h => ⟨rfl, ⟨["BEGIN", insertOrderSqlText], rfl⟩⟩,
           fun n h => Except.noConfusion h⟩
  | ok p =>
    obtain ⟨r, db1⟩ := p
    dsimp only
    cases hl : r.lastID with
    | none =>
      exact ⟨fun e' h => ⟨rfl, ⟨["BEGIN", insertOrderSqlText], rfl⟩⟩,
             fun n h => Except.noConfusion h⟩
    | some newId =>
      have hnew : newId = db.nextOrderId := by
        have hok := insertCustomerOrder_ok db db1 order r hp
        rw [hl] at hok
        exact Option.some.inj hok
      dsimp only
      cases hins : insertDetails db1 newId details with
      | mk fst dlog =>
        cases fst with
        | error e =>
          exact ⟨fun e' h => ⟨rfl, ⟨"BEGIN" :: insertOrderSqlText :: dlog, rfl⟩⟩,
                 fun n h => Except.noConfusion h⟩
        | ok db2 =>
          obtain ⟨hlog, -, -⟩ := insertDetails_ok newId details db1 db2 (by rw [hins])
          have hdlog : dlog = List.replicate details.length insertDetailSqlText := by
            rw [← hlog, hins]
          subst hdlog
          subst hnew
          exact ⟨fun e h => Except.noConfusion h,
                 fun n h => ⟨(Except.ok.inj h).symm, rfl⟩⟩

/-- Claim C1 witness: inserting a detail with a dangling product reference
rolls the whole batch back and leaves `dbEx` unchanged, while a valid call
commits with log BEGIN, parent INSERT, one detail INSERT, COMMIT and returns
the assigned id. -/
theorem createOrder_atomic_witness :
    ((createOrder dbEx orderInputEx [detailEx, badDetailEx]).db = dbEx ∧
      ∃ pre, (createOrder dbEx orderInputEx [detailEx, badDetailEx]).log =
        pre ++ ["ROLLBACK"]) ∧
    (dbEx.nextOrderId = dbEx.nextOrderId ∧
      (createOrder dbEx orderInputEx [detailEx]).log =
        "BEGIN" :: insertOrderSqlText ::
          (List.replicate 1 insertDetailSqlText ++ ["COMMIT"])) :=
  ⟨(createOrder_atomic dbEx orderInputEx [detailEx, badDetailEx]).1
      "FOREIGN KEY constraint failed" (by decide),
   (createOrder_atomic dbEx orderInputEx [detailEx]).2 dbEx.nextOrderId (by decide)⟩

/-- Claim C4: for every order created with assigned id `N` and every detail
with product id `P`, the `OrderDetail` row inserted by `createOrder` has
composite id exactly the string `"N/P"` and its `orderid` column equal to
`N` (the value bound as `$1`). -/
theorem createOrder_detail_ids (db : DB) (order : CreateOrderInput)
    (details : List CreateDetailInput) (n : Nat)
    (h : (createOrder db order details).res = .ok n) :
    ∀ d ∈ details, ∃ row ∈ (createOrder db order details).db.details,
      row.id = toString n ++ "/" ++ toString d.productid ∧ row.orderid = n := by
  unfold createOrder at h ⊢
  cases hp : insertCustomerOrder db order with
  | error e =>
    rw [hp] at h
    exact Except.noConfusion h
  | ok p =>
    obtain ⟨r, db1⟩ := p
    rw [hp] at h
    dsimp only at h ⊢
    cases hl : r.lastID with
    | none =>
      rw [hl] at h
      exact Except.noConfusion h
    | some newId =>
      have hnewid : newId = db.nextOrderId := by
        have hok := insertCustomerOrder_ok db db1 order r hp
        rw [hl] at hok
        exact Option.some.inj hok
      rw [hl] at h
      dsimp only at h ⊢
      cases hins : insertDetails db1 newId details with
      | mk fst dlog =>
        rw [hins] at h
        cases fst with
        | error e => exact Except.noConfusion h
        | ok db2 =>
          have hn : newId = n := Except.ok.inj h
          obtain ⟨-, -, hmem⟩ := insertDetails_ok newId details db1 db2 (by rw [hins])
          subst hn
          intro d hd
          exact hmem d hd

/-- Claim C4 witness: creating an order on `dbEx` (which assigns id 4) with a
detail for product 1 leaves a detail row with composite id "4/1" and orderid
4. -/
theorem createOrder_detail_ids_witness :
    ∃ row ∈ (createOrder dbEx orderInputEx [detailEx]).db.details,
      row.id = toString 4 ++ "/" ++ toString detailEx.productid ∧ row.orderid = 4 :=
  createOrder_detail_ids dbEx orderInputEx [detailEx] 4 (by decide) detailEx
    (List.mem_cons_self detailEx [])

/-- Helper: a successful detail UPDATE loop logs one statement per detail. -/
theorem updateDetails_ok_log :
    ∀ (ds : List UpdateDetailInput) (db db2 : DB),
      (updateDetails db ds).1 = .ok db2 →
      (updateDetails db ds).2 = List.replicate ds.length updateDetailSqlText := by
  intro ds
  induction ds with
  | nil => intro db db2 _; rfl
  | cons d rest ih =>
    intro db db2 h
    simp only [updateDetails] at h ⊢
    cases hd : updateOrderDetail db d with
    | error e =>
      rw [hd] at h
      exact Except.noConfusion h
    | ok db1 =>
      rw [hd] at h
      dsimp only at h ⊢
      rw [ih db1 db2 h]
      rfl

/-- Claim C3 counterexample: the detail UPDATE statements of `updateOrder`
ARE covered by the same all-or-nothing guarantee as the parent update — all
of them execute between the one BEGIN and COMMIT/ROLLBACK.  Concretely, a
failing detail update (dangling product 99) rolls the already-executed parent
update back: the call errors and the state is exactly the pre-call `dbEx`,
although the parent UPDATE alone would have changed the order rows. -/
theorem updateOrder_counterexample :
    (updateOrder dbEx 1 orderInputEx [badUpdDetailEx]).res = .error "Error occurred" ∧
    (updateOrder dbEx 1 orderInputEx [badUpdDetailEx]).db = dbEx ∧
    ∃ r1 db1, updateCustomerOrder dbEx 1 orderInputEx = .ok (r1, db1) ∧
      db1.orders ≠ dbEx.orders := by
  refine ⟨rfl, rfl, ⟨{ lastID := some 0 }, _, rfl, ?_⟩⟩
  decide

/-- Claim C3 amended: `updateOrder(id, data, details)` issues the parent
UPDATE and each supplied detail UPDATE as separate statements, but all inside
the same BEGIN/COMMIT scope; under the driver's serialized execution any
failure rolls the parent and detail updates back together (state unchanged)
and surfaces the generic `Error occurred` failure. -/
theorem updateOrder_transactional (db : DB) (id : Nat) (data : CreateOrderInput)
    (details : List UpdateDetailInput) :
    (∀ e, (updateOrder db id data details).res = .error e →
        e = "Error occurred" ∧ (updateOrder db id data details).db = db ∧
        ∃ pre, (updateOrder db id data details).log = pre ++ ["ROLLBACK"]) ∧
    ((updateOrder db id data details).res = .ok () →
        (updateOrder db id data details).log =
          "BEGIN" :: updateOrderSqlText (.num (id : ℚ)) ::
            (List.replicate details.length updateDetailSqlText ++ ["COMMIT"])) := by
  unfold updateOrder
  cases hp : updateCustomerOrder db id data with
  | error e =>
    exact ⟨fun e' h => ⟨(Except.error.inj h).symm,
                        rfl, ⟨["BEGIN", updateOrderSqlText (.num (id : ℚ))], rfl⟩⟩,
           fun h => Except.noConfusion h⟩
  | ok p =>
    obtain ⟨r, db1⟩ := p
    dsimp only
    cases hl : r.lastID with
    | none =>
      exact ⟨fun e' h => ⟨(Except.error.inj h).symm,
                          rfl, ⟨["BEGIN", updateOrderSqlText (.num (id : ℚ))], rfl⟩⟩,
             fun h => Except.noConfusion h⟩
    | some v =>
      dsimp only
      cases hds : updateDetails db1 details with
      | mk fst dlog =>
        cases fst with
        | error e =>
          exact ⟨fun e' h => ⟨(Except.error.inj h).symm,
                    rfl, ⟨"BEGIN" :: updateOrderSqlText (.num (id : ℚ)) :: dlog, rfl⟩⟩,
                 fun h => Except.noConfusion h⟩
        | ok db2 =>
          have hdlog : dlog = List.replicate details.length updateDetailSqlText := by
            rw [← updateDetails_ok_log details db1 db2 (by rw [hds]), hds]
          subst hdlog
          exact ⟨fun e h => Except.noConfusion h, fun h => rfl⟩

/-- Claim C3 witness: a failing detail update on `dbEx` leaves the state
unchanged with a generic error and a ROLLBACK-terminated statement log, and a
valid update commits with the full BEGIN/UPDATE/UPDATE/COMMIT log. -/
theorem updateOrder_transactional_witness :
    ("Error occurred" = "Error occurred" ∧
      (updateOrder dbEx 1 orderInputEx [badUpdDetailEx]).db = dbEx ∧
      ∃ pre, (updateOrder dbEx 1 orderInputEx [badUpdDetailEx]).log =
        pre ++ ["ROLLBACK"]) ∧
    (updateOrder dbEx 1 orderInputEx [updDetailEx]).log =
      "BEGIN" :: updateOrderSqlText (.num ((1 : Nat) : ℚ)) ::
        (List.replicate 1 updateDetailSqlText ++ ["COMMIT"]) :=
  ⟨(updateOrder_transactional dbEx 1 orderInputEx [badUpdDetailEx]).1 "Error occurred" rfl,
   (updateOrder_transactional dbEx 1 orderInputEx [updDetailEx]).2 rfl⟩

/-- Claim C8 counterexample: `getCustomerOrders(customerId, opts)` does NOT
always return only orders of `customerId`: the `...opts` spread comes last,
so an `opts.customerId` key overrides the positional customer id, and the
returned orders then belong to the overriding customer. -/
theorem getCustomerOrders_counterexample :
    ((getCustomerOrders dbEx (.str "ALFKI") { customerId := some (.str "BERGS") }).2.all
      (fun r => r.customerid = some "ALFKI")) = false := by
  decide

/-- Claim C8 amended: when the caller-supplied `opts` does not itself carry a
`customerId` key and the given customer id is truthy (non-empty) and keeps
the interpolated SQL literal intact (it contains no single-quote character),
`getCustomerOrders(customerId, opts)` returns only orders whose customer
reference equals `customerId`; when `opts` supplies no sort and no order, the
result is sorted by shipped date ascending (callers may still override sort,
order and the other options through `opts`). -/
theorem getCustomerOrders_scoped (db : DB) (cid : String) (opts : OrderCollectionOptions)
    (hc : opts.customerId = none) (hcid : cid ≠ "")
    (hq : cid.data.contains '\'' = false) :
    (∀ row ∈ (getCustomerOrders db (.str cid) opts).2, row.customerid = some cid) ∧
    (opts.sort = none → opts.order = none →
      List.Sorted (rowRel "shippeddate" "asc") (getCustomerOrders db (.str cid) opts).2) := by
  have htr : (JsVal.str cid).truthy = true := by simp [JsVal.truthy, hcid]
  have hq2 : (JsVal.str cid).breaksLiteral = false := hq
  unfold getCustomerOrders getAllOrders runCollectionQuery mergeOptions
  simp only [hc, Option.getD_none, Option.getD_some, htr, hq2, if_true,
    Bool.false_eq_true, if_false, JsVal.asTemplateString]
  constructor
  · intro row hrow
    have h1 : row ∈ List.insertionSort
        (rowRel (opts.sort.getD "shippeddate") (opts.order.getD "asc"))
        ((db.orders.filter (fun r => r.customerid = some cid)).map (joinOrderRow db)) :=
      List.drop_subset _ _ (List.take_subset _ _ hrow)
    have h2 : row ∈ (db.orders.filter (fun r => r.customerid = some cid)).map
        (joinOrderRow db) :=
      (List.perm_insertionSort _ _).mem_iff.mp h1
    obtain ⟨o, ho, heq⟩ := List.mem_map.mp h2
    have hcust : o.customerid = some cid :=
      of_decide_eq_true (List.mem_filter.mp ho).2
    rw [← heq]
    exact hcust
  · intro hs ho2
    simp only [hs, ho2, Option.getD_none]
    exact List.Pairwise.sublist
      ((List.take_sublist _ _).trans (List.drop_sublist _ _))
      (List.sorted_insertionSort _ _)

/-- Claim C8 witness: the quote-free customer id ALFKI with no overriding
options: its orders in `dbEx` come back sorted by shipped date ascending. -/
theorem getCustomerOrders_scoped_witness :
    List.Sorted (rowRel "shippeddate" "asc") (getCustomerOrders dbEx (.str "ALFKI") {}).2 :=
  (getCustomerOrders_scoped dbEx "ALFKI" {} rfl (by decide) (by decide)).2 rfl rfl
